import Mathlib

/-!
Verification of the PragnaPath client-side learning flow.

The definitions below are a shallow embedding of the JavaScript/JSX source:

* `frontend/src/api.js` — wire payloads, localStorage helpers, `startSession`,
  `stripMarkdown`;
* the `LearningView` component (`handleReExplain`, `handleMCQSubmit`,
  `handleExplainBackComplete`);
* `InteractiveMCQ` (MCQ result objects and re-explanation requests);
* `ExplainBack` (re-explanation requests, evaluation callback);
* `App` (`handleProfileUpdate`);
* `ProfileComparison` (the "which fields changed" report).

JavaScript data is modelled as follows: strings are `String`, numbers in the
relevant positions are `Nat`, `null`/`undefined` is `Option.none`, a thrown
exception from an awaited call is `Except.error ()`.  JS truthiness tests on a
number `n` are `n ≠ 0`; on an optional value they are `Option.isSome` (objects
are always truthy).
-/

namespace PragnaPath

/-- The learner profile object as produced by the backend and consumed by the
client (`learning_style`, `pace`, `confidence`, `depth_preference` plus the two
answer counters shown in `ProfileComparison`). -/
structure LearnerProfile where
  learning_style : String
  pace : String
  confidence : String
  depth_preference : String
  correct_answers : Nat
  total_answers : Nat
  deriving DecidableEq, Repr

/-! ### ProfileComparison (frontend/src/components/ProfileComparison.jsx) -/

/-- The `profileFields` array of `ProfileComparison.jsx` (lines 4-9): the four
profile field keys inspected for the change report, paired with their accessor. -/
def profileFields : List (String × (LearnerProfile → String)) :=
  [("learning_style", LearnerProfile.learning_style),
   ("pace", LearnerProfile.pace),
   ("confidence", LearnerProfile.confidence),
   ("depth_preference", LearnerProfile.depth_preference)]

/-- The four field keys of the change report. -/
def profileFieldKeys : List String :=
  ["learning_style", "pace", "confidence", "depth_preference"]

/-- The `changes` list computed by `ProfileComparison` (lines 41-54): for each
of the four profile fields, if the previous and current values differ, an entry
`(key, from, to)` is pushed. -/
def profileChanges (previousProfile currentProfile : LearnerProfile) :
    List (String × String × String) :=
  profileFields.filterMap fun kf =>
    if kf.2 previousProfile ≠ kf.2 currentProfile then
      some (kf.1, kf.2 previousProfile, kf.2 currentProfile)
    else none

/-- The `triggerMessages` keys of `ProfileComparison.jsx` (lines 59-65): the
closed set of adaptation trigger kinds known to the client. -/
def adaptationTriggerKinds : List String :=
  ["mcq_incorrect", "explain_back_incorrect", "struggling", "slow_response",
   "user_request"]

/-! ### Re-explanation triggers (LearningView / ExplainBack / InteractiveMCQ) -/

/-- `handleReExplain` in `LearningView` has signature
`(trigger = 'user_request')`; this models the JS default parameter: a call with
no argument uses `"user_request"`. -/
def handleReExplainTrigger (arg : Option String) : String :=
  arg.getD "user_request"

/-- The arguments of every call site of `handleReExplain` in the source:
the "Explain Differently" button passes `'struggling'`
(LearningView, both versions), `ExplainBack.handleRequestReExplanation` passes
`'explain_back_incorrect'`, `InteractiveMCQ.handleRequestReExplanation` passes
`'mcq_incorrect'`, and `none` stands for any call using the default. -/
def reExplainCallArgs : List (Option String) :=
  [some "struggling", some "explain_back_incorrect", some "mcq_incorrect", none]

/-! ### App-level profile state (App.jsx / part_001 `handleProfileUpdate`) -/

/-- The App component state touched by `handleProfileUpdate`:
`previousProfile`, `profile` and `adaptationCount`. -/
structure AppState where
  previousProfile : Option LearnerProfile
  profile : Option LearnerProfile
  adaptationCount : Nat
  deriving DecidableEq, Repr

/-- `handleProfileUpdate` (part_001 lines 279-284, App.jsx lines 77-80):
remembers the old profile, installs the new one and increments
`adaptationCount` by one. -/
def handleProfileUpdate (s : AppState) (newProfile : LearnerProfile) : AppState :=
  { previousProfile := s.profile
    profile := some newProfile
    adaptationCount := s.adaptationCount + 1 }

/-! ### LearningView handlers (part_005) -/

/-- The MCQ result object built by `InteractiveMCQ.handleSelectAnswer`
(part_004 lines 384-391): `selectedAnswer` is the selected option index, a
JS number. -/
structure MCQResult where
  isCorrect : Bool
  selectedAnswer : Nat
  deriving DecidableEq, Repr

/-- Response of `POST /api/mcq/submit` as consumed by `handleMCQSubmit`. -/
structure MCQSubmitResponse where
  profile_updated : Bool
  previous_profile : LearnerProfile
  updated_profile : LearnerProfile
  deriving DecidableEq, Repr

/-- Response of `POST /api/misconception-check` as consumed by the handlers. -/
structure MisconceptionResponse where
  misconception_detected : Bool
  misconception : String
  correction : String
  deriving DecidableEq, Repr

/-- The LearningView component state touched by `handleMCQSubmit` and
`handleExplainBackComplete`. -/
structure LVState where
  oldProfile : Option LearnerProfile
  lastTrigger : Option String
  showProfileChange : Bool
  misconceptionData : Option MisconceptionResponse
  deriving DecidableEq, Repr

/-- Result of running a LearningView handler: the component state, the App
state (via the `onProfileUpdate` callback) and whether `checkMisconceptions`
was invoked. -/
structure MCQFlowResult where
  lv : LVState
  app : AppState
  misconceptionCallMade : Bool
  deriving DecidableEq, Repr

/-- `handleMCQSubmit` (part_005 lines 166-206).  `submitOutcome` is the awaited
result of `submitMCQAnswer` and `misOutcome` that of `checkMisconceptions`
(`Except.error ()` = the call threw).  The outer `try`/`catch` swallows a
failed submit; the inner `try`/`catch` swallows a failed misconception check.
The misconception check is guarded by `!result.isCorrect &&
result.selectedAnswer`, where the second conjunct is JS truthiness of the
selected option index. -/
def handleMCQSubmit (lv : LVState) (app : AppState) (result : MCQResult)
    (submitOutcome : Except Unit MCQSubmitResponse)
    (misOutcome : Except Unit MisconceptionResponse) : MCQFlowResult :=
  match submitOutcome with
  | .error _ => ⟨lv, app, false⟩
  | .ok response =>
    let lv1 : LVState :=
      if response.profile_updated then
        { lv with oldProfile := some response.previous_profile
                  lastTrigger := some "mcq_incorrect"
                  showProfileChange := true }
      else lv
    let app1 : AppState :=
      if response.profile_updated then handleProfileUpdate app response.updated_profile
      else app
    if result.isCorrect = false ∧ result.selectedAnswer ≠ 0 then
      match misOutcome with
      | .ok mis =>
        ⟨if mis.misconception_detected then
            { lv1 with misconceptionData := some mis }
          else lv1, app1, true⟩
      | .error _ => ⟨lv1, app1, true⟩
    else ⟨lv1, app1, false⟩

/-- `handleMCQSubmit` with the misconception-check block (part_005 lines
180-202) deleted: the flow as it would run without the misconception
enrichment.  Used to state that a failing check is non-fatal. -/
def handleMCQSubmitNoCheck (lv : LVState) (app : AppState)
    (submitOutcome : Except Unit MCQSubmitResponse) : LVState × AppState :=
  match submitOutcome with
  | .error _ => (lv, app)
  | .ok response =>
    if response.profile_updated then
      ({ lv with oldProfile := some response.previous_profile
                 lastTrigger := some "mcq_incorrect"
                 showProfileChange := true },
       handleProfileUpdate app response.updated_profile)
    else (lv, app)

/-- The evaluation object passed to `handleExplainBackComplete` (produced by
`ExplainBack` from `POST /api/evaluate-explanation`). -/
structure EvalResult where
  understanding : String
  profile_updated : Bool
  previous_profile : LearnerProfile
  learner_input : String
  deriving DecidableEq, Repr

/-- `handleExplainBackComplete` (part_005 lines 209-242).  The misconception
check is guarded by `understanding === 'poor' || understanding === 'partial'`
and its failure is swallowed by the surrounding `try`/`catch`. -/
def handleExplainBackComplete (lv : LVState) (evaluation : EvalResult)
    (misOutcome : Except Unit MisconceptionResponse) : LVState × Bool :=
  let lv1 : LVState :=
    if evaluation.profile_updated then
      { lv with oldProfile := some evaluation.previous_profile
                lastTrigger := some "explain_back_incorrect"
                showProfileChange := true }
    else lv
  if evaluation.understanding = "poor" ∨ evaluation.understanding = "partial" then
    match misOutcome with
    | .ok mis =>
      (if mis.misconception_detected then { lv1 with misconceptionData := some mis }
       else lv1, true)
    | .error _ => (lv1, true)
  else (lv1, false)

/-- `handleExplainBackComplete` with the misconception-check block (part_005
lines 219-241) deleted. -/
def handleExplainBackCompleteNoCheck (lv : LVState) (evaluation : EvalResult) :
    LVState :=
  if evaluation.profile_updated then
    { lv with oldProfile := some evaluation.previous_profile
              lastTrigger := some "explain_back_incorrect"
              showProfileChange := true }
  else lv

/-! ### localStorage model and the persistence helpers (api.js lines 70-145) -/

/-- Browser `localStorage`: a partial map from keys to string values. -/
def Storage : Type := String → Option String

/-- `localStorage.setItem`. -/
def setItem (s : Storage) (key value : String) : Storage :=
  fun k => if k = key then some value else s k

/-- `localStorage.removeItem`. -/
def removeItem (s : Storage) (key : String) : Storage :=
  fun k => if k = key then none else s k

/-- Storage key constants (api.js lines 70-74). -/
def SESSION_STORAGE_KEY : String := "pragnapath_session_id"

def PROFILE_STORAGE_KEY : String := "pragnapath_profile"

def USER_ID_STORAGE_KEY : String := "pragnapath_user_id"

def AUTH_TOKEN_KEY : String := "pragnapath_auth_token"

def USER_DATA_KEY : String := "pragnapath_user_data"

/-- `clearStoredSession` (api.js lines 113-117): removes the session id and the
profile; the comment in the source says user id and auth are intentionally
kept. -/
def clearStoredSession (s : Storage) : Storage :=
  removeItem (removeItem s SESSION_STORAGE_KEY) PROFILE_STORAGE_KEY

/-- `clearAllUserData` (api.js lines 119-125): removes all five stored keys. -/
def clearAllUserData (s : Storage) : Storage :=
  removeItem
    (removeItem
      (removeItem (removeItem (removeItem s SESSION_STORAGE_KEY) PROFILE_STORAGE_KEY)
        USER_ID_STORAGE_KEY)
      AUTH_TOKEN_KEY)
    USER_DATA_KEY

/-! ### startSession (api.js lines 148-192)

The session/profile values flowing through `startSession` are kept opaque
(strings): the client never inspects the profile here, it only passes it
between the server response and `localStorage` (`JSON.stringify`/`parse` is
dropped, its round-trip being the identity on this opaque view). -/

/-- `response.data` of `GET /api/session/{id}` as used by `startSession`. -/
structure GetSessionData where
  profile : Option String
  deriving DecidableEq, Repr

/-- Outcome of the awaited `getSession` call in `startSession`:
`ok none` models a falsy `response.data`, `error ()` a thrown request. -/
def GetSessionOutcome := Except Unit (Option GetSessionData)

/-- `response.data` of `POST /api/session/start`. -/
structure StartSessionResponse where
  session_id : String
  user_id : Option String
  profile : Option String
  deriving DecidableEq, Repr

/-- The object returned by `startSession`.  The restored-session branch
returns `restored: true`; the created branch returns the raw response data,
whose `restored` field is absent (falsy). -/
structure StartSessionResult where
  session_id : String
  user_id : Option String
  profile : Option String
  restored : Bool
  deriving DecidableEq, Repr

/-- The new-session branch of `startSession` (api.js lines 173-191): POST
`/api/session/start`, then store the returned session id, user id (when
present) and profile (when present). -/
def startSessionCreate (store : Storage) (createResponse : StartSessionResponse) :
    StartSessionResult × Storage :=
  let s1 := setItem store SESSION_STORAGE_KEY createResponse.session_id
  let s2 := match createResponse.user_id with
            | some u => setItem s1 USER_ID_STORAGE_KEY u
            | none => s1
  let s3 := match createResponse.profile with
            | some p => setItem s2 PROFILE_STORAGE_KEY p
            | none => s2
  (⟨createResponse.session_id, createResponse.user_id, createResponse.profile,
    false⟩, s3)

/-- `startSession(topic, forceNew)` (api.js lines 148-192), as a function of
the storage state and of the two possible server interactions: `getOutcome` is
what `getSession(existingSessionId)` would yield, `createResponse` what
`POST /api/session/start` would return. -/
def startSession (store : Storage) (forceNew : Bool)
    (getOutcome : GetSessionOutcome) (createResponse : StartSessionResponse) :
    StartSessionResult × Storage :=
  match store SESSION_STORAGE_KEY, forceNew with
  | some existingSessionId, false =>
    match getOutcome with
    | .ok (some sessionData) =>
      (⟨existingSessionId, store USER_ID_STORAGE_KEY,
        (sessionData.profile).orElse (fun _ => store PROFILE_STORAGE_KEY),
        true⟩, store)
    | .ok none => startSessionCreate store createResponse
    | .error _ => startSessionCreate (clearStoredSession store) createResponse
  | _, _ => startSessionCreate store createResponse

/-! ### submitAnswer wire payload (api.js lines 236-245) -/

/-- A minimal JSON value model for request bodies. -/
inductive JsonValue where
  | null : JsonValue
  | str : String → JsonValue
  | num : Int → JsonValue
  deriving DecidableEq, Repr

/-- The request body built by `submitAnswer` (api.js lines 237-243), as an
ordered list of field-name/value pairs.  The `confidence` parameter defaults
to `null` in the source (`confidence = null`); callers omitting it are
modelled by passing `JsonValue.null`. -/
def submitAnswerPayload (sessionId questionId selectedAnswer timeTaken : JsonValue)
    (confidence : JsonValue := JsonValue.null) : List (String × JsonValue) :=
  [("session_id", sessionId),
   ("question_id", questionId),
   ("selected_answer", selectedAnswer),
   ("time_taken_seconds", timeTaken),
   ("confidence_rating", confidence)]

/-! ### StyleSelector -/

/-- Modelled from the spec: the backend `StyleSelector.select` is not part of
the client sources under `src/`; §4.2 of the spec fixes it as a deterministic
precedence policy over the four profile fields (first match wins):
low confidence and slow pace give story-analogy; exam-focused gives exam-smart;
formula-first gives step-by-step; visual gives visual-mental; default
story-analogy. -/
def selectStyle (p : LearnerProfile) : String :=
  if p.confidence = "low" ∧ p.pace = "slow" then "story-analogy"
  else if p.learning_style = "exam-focused" then "exam-smart"
  else if p.depth_preference = "formula-first" then "step-by-step"
  else if p.learning_style = "visual" then "visual-mental"
  else "story-analogy"

/-- The closed set of explanation styles (§4.2). -/
def styleSet : List String :=
  ["story-analogy", "step-by-step", "exam-smart", "visual-mental"]

/-! ### stripMarkdown (api.js lines 20-42)

The source applies, in order, the global regex rewrites
`/\*\*(.+?)\*\*/ → $1`, `/__(.+?)__/ → $1`,
`/(?<!\*)\*(?!\*)(.+?)(?<!\*)\*(?!\*)/ → $1`, `` /`(.+?)`/ → $1 ``,
`/^#{1,6}\s*/m → ``` (empty)``, `/  +/ → ' '`, then `String.trim`.

Each rewrite is embedded as a left-to-right scanner over `List Char` with the
exact regex semantics: matching runs over the input left to right, matches are
non-overlapping, `(.+?)` is lazy, matches at least one character and `.` never
matches a newline, and scanning resumes after the replaced match.  The
scanners take a fuel argument (structurally decreasing; the wrappers pass the
list length, which always suffices because every step consumes at least one
character). -/

/-- The backtick character (U+0060). -/
def btick : Char := Char.ofNat 96

/-- JS `\s` / `String.trim` whitespace, restricted to the ASCII range (space,
tab, newline, carriage return, vertical tab, form feed). -/
def isJsWS (c : Char) : Bool :=
  c = ' ' || c = '\t' || c = '\n' || c = '\r' || c = Char.ofNat 11 || c = Char.ofNat 12

/-- Lazy search for the closing double delimiter `mm` in `\*\*(.+?)\*\*` (and
`__(.+?)__`): given the text after the opening delimiter, splits off the
shortest non-empty newline-free content followed by `mm`, returning the
content and the text after the close. -/
def splitClose2 (m : Char) : List Char → Option (List Char × List Char)
  | [] => none
  | c :: rest =>
    if c = '\n' then none
    else
      match rest with
      | a :: b :: rest2 =>
        if a = m ∧ b = m then some ([c], rest2)
        else (splitClose2 m (a :: b :: rest2)).map fun p => (c :: p.1, p.2)
      | _ => none

/-- One global pass of `/mm(.+?)mm/ → $1` (bold with `m = '*'`, underline-bold
with `m = '_'`). -/
def boldF (m : Char) : Nat → List Char → List Char
  | 0, l => l
  | _ + 1, [] => []
  | f + 1, a :: rest =>
    if a = m then
      match rest with
      | b :: rest2 =>
        if b = m then
          match splitClose2 m rest2 with
          | some (content, rest3) => content ++ boldF m f rest3
          | none => a :: boldF m f rest
        else a :: boldF m f rest
      | [] => [a]
    else a :: boldF m f rest

/-- Lazy search for the closing `*` of the italic regex: the close must not be
preceded (`(?<!\*)`) or followed (`(?!\*)`) by another `*`; `prev` is the
character just before the current position. -/
def splitCloseItal (prev : Char) : List Char → Option (List Char × List Char)
  | [] => none
  | a :: tail =>
    if a = '*' ∧ prev ≠ '*' ∧ tail.head? ≠ some '*' then some ([], tail)
    else if a = '\n' then none
    else (splitCloseItal a tail).map fun p => (a :: p.1, p.2)

/-- One global pass of `/(?<!\*)\*(?!\*)(.+?)(?<!\*)\*(?!\*)/ → $1` (italic).
`prev` is the character before the scan position in the original text (`none`
at the start of the string). -/
def italF : Nat → Option Char → List Char → List Char
  | 0, _, l => l
  | _ + 1, _, [] => []
  | f + 1, prev, a :: rest =>
    if a = '*' ∧ prev ≠ some '*' ∧ rest.head? ≠ some '*' then
      match rest with
      | c :: rest2 =>
        if c = '\n' then a :: italF f (some a) rest
        else
          match splitCloseItal c rest2 with
          | some (content, rest3) => c :: content ++ italF f (some '*') rest3
          | none => a :: italF f (some a) rest
      | [] => [a]
    else a :: italF f (some a) rest

/-- Lazy search for the closing backtick of `` /`(.+?)`/ ``. -/
def splitTick : List Char → Option (List Char × List Char)
  | [] => none
  | a :: tail =>
    if a = btick then some ([], tail)
    else if a = '\n' then none
    else (splitTick tail).map fun p => (a :: p.1, p.2)

/-- One global pass of `` /`(.+?)`/ → $1 ``. -/
def tickF : Nat → List Char → List Char
  | 0, l => l
  | _ + 1, [] => []
  | f + 1, a :: rest =>
    if a = btick then
      match rest with
      | c :: rest2 =>
        if c = '\n' then a :: tickF f rest
        else
          match splitTick rest2 with
          | some (content, rest3) => c :: content ++ tickF f rest3
          | none => a :: tickF f rest
      | [] => [a]
    else a :: tickF f rest

/-- Consume up to `n` leading `#` characters. -/
def dropHashes : Nat → List Char → List Char
  | 0, l => l
  | _ + 1, [] => []
  | n + 1, c :: rest => if c = '#' then dropHashes n rest else c :: rest

/-- Greedily consume the `\s*` run after the hashes; returns whether the last
consumed character was a newline (which makes the resume position a line
start under the `m` flag) and the remaining text. -/
def dropWSRun (lastWasNL : Bool) : List Char → Bool × List Char
  | [] => (lastWasNL, [])
  | c :: rest =>
    if isJsWS c then dropWSRun (c = '\n') rest else (lastWasNL, c :: rest)

/-- One global pass of `/^#{1,6}\s*/m → ``` (empty)``: at every line start,
strip one to six `#` and the following whitespace run. -/
def hdrF : Nat → Bool → List Char → List Char
  | 0, _, l => l
  | _ + 1, _, [] => []
  | f + 1, atStart, a :: rest =>
    if atStart ∧ a = '#' then
      let r1 := dropHashes 5 rest
      let (nl, r2) := dropWSRun false r1
      hdrF f nl r2
    else a :: hdrF f (a = '\n') rest

/-- One global pass of `/  +/ → ' '`: collapse every run of two or more
spaces to a single space. -/
def collapseF : Nat → List Char → List Char
  | 0, l => l
  | _ + 1, [] => []
  | f + 1, c :: rest =>
    if c = ' ' ∧ rest.head? = some ' ' then collapseF f rest
    else c :: collapseF f rest

/-- JS `String.trim`: drop whitespace from both ends. -/
def jsTrim (l : List Char) : List Char :=
  List.rdropWhile isJsWS (List.dropWhile isJsWS l)

/-- `stripMarkdown` (api.js lines 20-42).  The guard `if (!text) return text`
returns falsy inputs unchanged; on `List Char` the only falsy string is the
empty one. -/
def stripMarkdown (l : List Char) : List Char :=
  if l = [] then l
  else
    let c1 := boldF '*' l.length l
    let c2 := boldF '_' c1.length c1
    let c3 := italF c2.length none c2
    let c4 := tickF c3.length c3
    let c5 := hdrF c4.length true c4
    let c6 := collapseF c5.length c5
    jsTrim c6

/-! ## Claims -/

/-- C1, counterexample.  The claim says `checkMisconceptions` is invoked
exactly when the MCQ answer is incorrect.  At the concrete incorrect result
with selected option index 0 (a perfectly reachable answer: the learner picks
option A and is wrong), the guard `!result.isCorrect && result.selectedAnswer`
is false because the index 0 is falsy, so no misconception check is made even
though the answer is incorrect. -/
theorem mcq_misconception_check_skipped_at_index_zero :
    (handleMCQSubmit ⟨none, none, false, none⟩ ⟨none, none, 0⟩
        ⟨false, 0⟩
        (Except.ok ⟨false, ⟨"conceptual", "medium", "medium", "intuition-first", 0, 1⟩,
          ⟨"conceptual", "medium", "medium", "intuition-first", 0, 1⟩⟩)
        (Except.ok ⟨true, "m", "c"⟩)).misconceptionCallMade = false
    ∧ (⟨false, 0⟩ : MCQResult).isCorrect = false := by
  constructor
  · rfl
  · rfl

/-- C1, amended.  For a successfully submitted MCQ result, the client requests
a misconception check exactly when the answer is incorrect AND the selected
answer value is truthy (a nonzero option index); and for every explain-back
evaluation, exactly when the understanding grade is "poor" or "partial"
(never for a correct answer or any other grade, e.g. off-topic). -/
theorem misconception_check_gating (lv : LVState) (app : AppState)
    (r : MCQResult) (resp : MCQSubmitResponse)
    (mis : Except Unit MisconceptionResponse)
    (lv2 : LVState) (evaluation : EvalResult)
    (mis2 : Except Unit MisconceptionResponse) :
    ((handleMCQSubmit lv app r (Except.ok resp) mis).misconceptionCallMade = true
      ↔ (r.isCorrect = false ∧ r.selectedAnswer ≠ 0))
    ∧ ((handleExplainBackComplete lv2 evaluation mis2).2 = true
      ↔ (evaluation.understanding = "poor" ∨ evaluation.understanding = "partial")) := by
  constructor
  · by_cases h : r.isCorrect = false ∧ r.selectedAnswer ≠ 0
    · cases mis with
      | ok m => by_cases hd : m.misconception_detected <;>
          simp [handleMCQSubmit, h, hd]
      | error e => simp [handleMCQSubmit, h]
    · cases mis with
      | ok m => simp [handleMCQSubmit, h]
      | error e => simp [handleMCQSubmit, h]
  · by_cases h : evaluation.understanding = "poor" ∨ evaluation.understanding = "partial"
    · cases mis2 with
      | ok m => by_cases hd : m.misconception_detected <;>
          simp [handleExplainBackComplete, h, hd]
      | error e => simp [handleExplainBackComplete, h]
    · cases mis2 with
      | ok m => simp [handleExplainBackComplete, h]
      | error e => simp [handleExplainBackComplete, h]

/-- C2.  A failure of the misconception lookup is non-fatal: when
`checkMisconceptions` throws, `handleMCQSubmit` and
`handleExplainBackComplete` end in exactly the state of the same flow run
without the misconception-check block — the error is caught, the profile
adaptation and the rest of the component state are untouched. -/
theorem misconception_failure_nonfatal (lv : LVState) (app : AppState)
    (r : MCQResult) (submitOutcome : Except Unit MCQSubmitResponse)
    (lv2 : LVState) (evaluation : EvalResult) :
    (((handleMCQSubmit lv app r submitOutcome (Except.error ())).lv,
      (handleMCQSubmit lv app r submitOutcome (Except.error ())).app)
        = handleMCQSubmitNoCheck lv app submitOutcome)
    ∧ ((handleExplainBackComplete lv2 evaluation (Except.error ())).1
        = handleExplainBackCompleteNoCheck lv2 evaluation) := by
  constructor
  · cases submitOutcome with
    | error e =>
      simp [handleMCQSubmit, handleMCQSubmitNoCheck]
    | ok resp =>
      by_cases hg : r.isCorrect = false ∧ r.selectedAnswer ≠ 0 <;>
        by_cases hu : resp.profile_updated <;>
          simp [handleMCQSubmit, handleMCQSubmitNoCheck, hg, hu]
  · by_cases hg : evaluation.understanding = "poor" ∨ evaluation.understanding = "partial" <;>
      by_cases hu : evaluation.profile_updated <;>
        simp [handleExplainBackComplete, handleExplainBackCompleteNoCheck, hg, hu]

/-- C3.  When the MCQ-submit response reports `profile_updated = false`, the
App state is entirely unchanged (no adaptation-counter increment, displayed
profile untouched); when it reports `profile_updated = true`, the counter is
incremented exactly once and the updated profile is installed. -/
theorem adaptation_count_tracks_profile_updated (lv : LVState) (app : AppState)
    (r : MCQResult) (resp : MCQSubmitResponse)
    (mis : Except Unit MisconceptionResponse) :
    (resp.profile_updated = false →
      (handleMCQSubmit lv app r (Except.ok resp) mis).app = app)
    ∧ (resp.profile_updated = true →
      (handleMCQSubmit lv app r (Except.ok resp) mis).app.adaptationCount
          = app.adaptationCount + 1
      ∧ (handleMCQSubmit lv app r (Except.ok resp) mis).app.profile
          = some resp.updated_profile) := by
  constructor
  · intro hu
    by_cases hg : r.isCorrect = false ∧ r.selectedAnswer ≠ 0 <;>
      cases mis with
      | ok m => by_cases hd : m.misconception_detected <;>
          simp [handleMCQSubmit, hu, hg, hd]
      | error e => simp [handleMCQSubmit, hu, hg]
  · intro hu
    by_cases hg : r.isCorrect = false ∧ r.selectedAnswer ≠ 0 <;>
      cases mis with
      | ok m => by_cases hd : m.misconception_detected <;>
          simp [handleMCQSubmit, handleProfileUpdate, hu, hg, hd]
      | error e => simp [handleMCQSubmit, handleProfileUpdate, hu, hg]

/-- C3, witness: the theorem applied at a concrete non-triggering response
(a correct answer, `profile_updated = false`): the App state is unchanged. -/
theorem adaptation_count_tracks_profile_updated_witness :
    (handleMCQSubmit ⟨none, none, false, none⟩ ⟨none, none, 3⟩ ⟨true, 1⟩
        (Except.ok ⟨false, ⟨"conceptual", "medium", "medium", "intuition-first", 1, 1⟩,
          ⟨"conceptual", "medium", "medium", "intuition-first", 1, 1⟩⟩)
        (Except.ok ⟨false, "", ""⟩)).app = ⟨none, none, 3⟩ :=
  (adaptation_count_tracks_profile_updated _ _ _ _ _).1 rfl

/-- C4.  The "which fields changed" report of `ProfileComparison` lists a
profile field if and only if its value differs between the previous and the
current profile, its entries range over exactly the four profile field keys,
and the `correct_answers`/`total_answers` counters are never listed. -/
theorem profile_changes_exact (prev curr : LearnerProfile) :
    ("learning_style" ∈ (profileChanges prev curr).map Prod.fst
        ↔ prev.learning_style ≠ curr.learning_style)
    ∧ ("pace" ∈ (profileChanges prev curr).map Prod.fst
        ↔ prev.pace ≠ curr.pace)
    ∧ ("confidence" ∈ (profileChanges prev curr).map Prod.fst
        ↔ prev.confidence ≠ curr.confidence)
    ∧ ("depth_preference" ∈ (profileChanges prev curr).map Prod.fst
        ↔ prev.depth_preference ≠ curr.depth_preference)
    ∧ ((profileChanges prev curr).all
        (fun e => profileFieldKeys.contains e.1) = true)
    ∧ profileFieldKeys.contains "correct_answers" = false
    ∧ profileFieldKeys.contains "total_answers" = false := by
  by_cases h1 : prev.learning_style = curr.learning_style <;>
    by_cases h2 : prev.pace = curr.pace <;>
      by_cases h3 : prev.confidence = curr.confidence <;>
        by_cases h4 : prev.depth_preference = curr.depth_preference <;>
          simp [profileChanges, profileFields, profileFieldKeys, h1, h2, h3, h4]

/-- C5.  Every trigger value the client can attach to a re-explanation
request — the `handleReExplain` default (`user_request`) and each of its call
sites (`struggling` from the "Explain Differently" button,
`explain_back_incorrect` from `ExplainBack`, `mcq_incorrect` from
`InteractiveMCQ`) — lies in the closed set of adaptation trigger kinds. -/
theorem reexplain_triggers_closed :
    (reExplainCallArgs.map handleReExplainTrigger).all
      (fun t => adaptationTriggerKinds.contains t) = true := by
  rfl

/-- C7.  Every submit-diagnostic-answer request body carries exactly the
wire-contract field names `session_id`, `question_id`, `selected_answer`,
`time_taken_seconds`, `confidence_rating`, in this order, for all argument
values; and when the confidence argument is omitted the
`confidence_rating` field is `null`. -/
theorem submit_answer_payload_fields
    (sessionId questionId selectedAnswer timeTaken confidence : JsonValue) :
    ((submitAnswerPayload sessionId questionId selectedAnswer timeTaken
        confidence).map Prod.fst
      = ["session_id", "question_id", "selected_answer", "time_taken_seconds",
         "confidence_rating"])
    ∧ (submitAnswerPayload sessionId questionId selectedAnswer timeTaken).get? 4
      = some ("confidence_rating", JsonValue.null) := by
  constructor
  · rfl
  · rfl

/-- C8 (style selection; the backend `StyleSelector` is modelled from spec
§4.2, it is not part of the sources under `src/`).  `selectStyle` is total
with outputs in the closed set {story-analogy, step-by-step, exam-smart,
visual-mental}, and it is a deterministic pure function of the four profile
fields alone: two profiles agreeing on `learning_style`, `pace`, `confidence`
and `depth_preference` (even with different answer counters, or across
invocations) select the same style. -/
theorem select_style_pure_total_closed (p q : LearnerProfile) :
    selectStyle p ∈ styleSet
    ∧ (p.learning_style = q.learning_style → p.pace = q.pace →
       p.confidence = q.confidence → p.depth_preference = q.depth_preference →
       selectStyle p = selectStyle q) := by
  constructor
  · unfold selectStyle styleSet
    split
    · simp
    · split
      · simp
      · split
        · simp
        · split <;> simp
  · intro h1 h2 h3 h4
    simp only [selectStyle, h1, h2, h3, h4]

/-- C8, witness: two concrete profiles agreeing on the four fields but with
different counters select the same style, which is in the closed set. -/
theorem select_style_pure_total_closed_witness :
    selectStyle ⟨"visual", "medium", "high", "intuition-first", 0, 0⟩ ∈ styleSet
    ∧ selectStyle ⟨"visual", "medium", "high", "intuition-first", 0, 0⟩
      = selectStyle ⟨"visual", "medium", "high", "intuition-first", 7, 9⟩ :=
  ⟨(select_style_pure_total_closed ⟨"visual", "medium", "high", "intuition-first", 0, 0⟩
      ⟨"visual", "medium", "high", "intuition-first", 7, 9⟩).1,
   (select_style_pure_total_closed ⟨"visual", "medium", "high", "intuition-first", 0, 0⟩
      ⟨"visual", "medium", "high", "intuition-first", 7, 9⟩).2 rfl rfl rfl rfl⟩

/-- C10.  `clearStoredSession` removes exactly the stored session id and
profile: both are gone afterwards, while every other key — in particular the
stored user id, auth token and user data — is unchanged; `clearAllUserData`
removes all five stored keys. -/
theorem clear_stored_session_frame (s : Storage) :
    clearStoredSession s SESSION_STORAGE_KEY = none
    ∧ clearStoredSession s PROFILE_STORAGE_KEY = none
    ∧ clearStoredSession s USER_ID_STORAGE_KEY = s USER_ID_STORAGE_KEY
    ∧ clearStoredSession s AUTH_TOKEN_KEY = s AUTH_TOKEN_KEY
    ∧ clearStoredSession s USER_DATA_KEY = s USER_DATA_KEY
    ∧ (∀ k, k ≠ SESSION_STORAGE_KEY → k ≠ PROFILE_STORAGE_KEY →
        clearStoredSession s k = s k)
    ∧ clearAllUserData s SESSION_STORAGE_KEY = none
    ∧ clearAllUserData s PROFILE_STORAGE_KEY = none
    ∧ clearAllUserData s USER_ID_STORAGE_KEY = none
    ∧ clearAllUserData s AUTH_TOKEN_KEY = none
    ∧ clearAllUserData s USER_DATA_KEY = none := by
  refine ⟨?_, ?_, ?_, ?_, ?_, ?_, ?_, ?_, ?_, ?_, ?_⟩
  case refine_6 =>
    intro k hk1 hk2
    simp only [clearStoredSession, removeItem, SESSION_STORAGE_KEY,
      PROFILE_STORAGE_KEY] at hk1 hk2 ⊢
    rw [if_neg hk2, if_neg hk1]
  all_goals
    simp [clearStoredSession, clearAllUserData, removeItem,
      SESSION_STORAGE_KEY, PROFILE_STORAGE_KEY, USER_ID_STORAGE_KEY,
      AUTH_TOKEN_KEY, USER_DATA_KEY]

/-- C10, witness: the theorem applied at a concrete storage holding all five
keys, and the frame part applied at the concrete unrelated key "other". -/
theorem clear_stored_session_frame_witness :
    clearStoredSession
      (fun k => if k = "other" then some "v" else some "w") "other" = some "v" :=
  ((clear_stored_session_frame _).2.2.2.2.2.1 "other" (by decide) (by decide)).trans rfl

/-- C6.  With `forceNew = false`, whenever a session id is present in local
storage and the server confirms the session exists (the `getSession` call
succeeds with truthy data), `startSession` returns that stored session id
with `restored = true` and leaves storage untouched — no new session is
created; and whenever a new session is created (the returned `restored` flag
is false), the new `session_id` — and the profile, when the response carries
one — are written to local storage. -/
theorem start_session_restore_and_persist (store : Storage)
    (getOutcome : GetSessionOutcome) (createResponse : StartSessionResponse)
    (sid : String) (data : GetSessionData) :
    (store SESSION_STORAGE_KEY = some sid →
      getOutcome = Except.ok (some data) →
      startSession store false getOutcome createResponse =
        (⟨sid, store USER_ID_STORAGE_KEY,
          (data.profile).orElse (fun _ => store PROFILE_STORAGE_KEY), true⟩,
         store))
    ∧ (∀ forceNew : Bool,
        (startSession store forceNew getOutcome createResponse).1.restored = false →
        (startSession store forceNew getOutcome createResponse).2 SESSION_STORAGE_KEY
            = some createResponse.session_id
        ∧ (∀ p, createResponse.profile = some p →
            (startSession store forceNew getOutcome createResponse).2 PROFILE_STORAGE_KEY
              = some p)) := by
  have hcreate : ∀ s : Storage,
      (startSessionCreate s createResponse).2 SESSION_STORAGE_KEY
          = some createResponse.session_id
      ∧ (∀ p, createResponse.profile = some p →
          (startSessionCreate s createResponse).2 PROFILE_STORAGE_KEY = some p) := by
    intro s
    constructor
    · cases hu : createResponse.user_id <;> cases hp : createResponse.profile <;>
        simp [startSessionCreate, setItem, hu, hp, SESSION_STORAGE_KEY,
          USER_ID_STORAGE_KEY, PROFILE_STORAGE_KEY]
    · intro p hp
      cases hu : createResponse.user_id <;>
        simp [startSessionCreate, setItem, hu, hp, PROFILE_STORAGE_KEY]
  constructor
  · intro hs hg
    simp [startSession, hs, hg]
  · intro forceNew hres
    cases hs : store SESSION_STORAGE_KEY with
    | none =>
      simp only [startSession, hs] at hres ⊢
      exact hcreate store
    | some existing =>
      cases forceNew with
      | true =>
        simp only [startSession, hs] at hres ⊢
        exact hcreate store
      | false =>
        cases hg : getOutcome with
        | ok od =>
          cases od with
          | none =>
            simp only [startSession, hs, hg] at hres ⊢
            exact hcreate store
          | some d =>
            simp [startSession, hs, hg] at hres
        | error e =>
          simp only [startSession, hs, hg] at hres ⊢
          exact hcreate (clearStoredSession store)

/-- C6, witness: at a concrete storage holding session id "s1" and user id
"u1", with the server confirming the session (profile "pj"), `startSession`
returns the stored session restored and does not touch storage. -/
theorem start_session_restore_and_persist_witness :
    startSession
      (fun k => if k = "pragnapath_session_id" then some "s1"
                else if k = "pragnapath_user_id" then some "u1" else none)
      false (Except.ok (some ⟨some "pj"⟩)) ⟨"s2", none, none⟩ =
      (⟨"s1", some "u1", some "pj", true⟩,
       fun k => if k = "pragnapath_session_id" then some "s1"
                else if k = "pragnapath_user_id" then some "u1" else none) := by
  have h := (start_session_restore_and_persist
    (fun k => if k = "pragnapath_session_id" then some "s1"
              else if k = "pragnapath_user_id" then some "u1" else none)
    (Except.ok (some ⟨some "pj"⟩)) ⟨"s2", none, none⟩ "s1" ⟨some "pj"⟩).1
    (by simp [SESSION_STORAGE_KEY]) rfl
  rw [h]
  refine Prod.ext ?_ rfl
  simp [USER_ID_STORAGE_KEY, PROFILE_STORAGE_KEY, Option.orElse]

/-! ### Lemmas about the stripMarkdown passes -/

/-- Each marker pass is the identity on text not containing its marker. -/
theorem boldF_eq_of_not_mem (m : Char) :
    ∀ (f : Nat) (l : List Char), m ∉ l → boldF m f l = l := by
  intro f
  induction f with
  | zero => intro l _; rfl
  | succ f ih =>
    intro l hm
    match l with
    | [] => rfl
    | a :: rest =>
      have ha : ¬(a = m) := fun h => hm (h ▸ List.mem_cons_self a rest)
      have hrest : m ∉ rest := fun h => hm (List.mem_cons_of_mem a h)
      simp [boldF, ha, ih rest hrest]

/-- The italic pass is the identity on text without asterisks. -/
theorem italF_eq_of_not_mem :
    ∀ (f : Nat) (prev : Option Char) (l : List Char), '*' ∉ l →
      italF f prev l = l := by
  intro f
  induction f with
  | zero => intro prev l _; rfl
  | succ f ih =>
    intro prev l hm
    match l with
    | [] => rfl
    | a :: rest =>
      have ha : ¬(a = '*') := fun h => hm (h ▸ List.mem_cons_self a rest)
      have hrest : '*' ∉ rest := fun h => hm (List.mem_cons_of_mem a h)
      have hcond : ¬(a = '*' ∧ prev ≠ some '*' ∧ rest.head? ≠ some '*') :=
        fun h => ha h.1
      simp [italF, hcond, ih (some a) rest hrest]

/-- The backtick pass is the identity on text without backticks. -/
theorem tickF_eq_of_not_mem :
    ∀ (f : Nat) (l : List Char), btick ∉ l → tickF f l = l := by
  intro f
  induction f with
  | zero => intro l _; rfl
  | succ f ih =>
    intro l hm
    match l with
    | [] => rfl
    | a :: rest =>
      have ha : ¬(a = btick) := fun h => hm (h ▸ List.mem_cons_self a rest)
      have hrest : btick ∉ rest := fun h => hm (List.mem_cons_of_mem a h)
      simp [tickF, ha, ih rest hrest]

/-- The header pass is the identity on text without `#`. -/
theorem hdrF_eq_of_not_mem :
    ∀ (f : Nat) (b : Bool) (l : List Char), '#' ∉ l → hdrF f b l = l := by
  intro f
  induction f with
  | zero => intro b l _; rfl
  | succ f ih =>
    intro b l hm
    match l with
    | [] => rfl
    | a :: rest =>
      have ha : ¬(a = '#') := fun h => hm (h ▸ List.mem_cons_self a rest)
      have hrest : '#' ∉ rest := fun h => hm (List.mem_cons_of_mem a h)
      have hcond : ¬(b = true ∧ a = '#') := fun h => ha h.2
      simp [hdrF, hcond, ih (a = '\n') rest hrest]

/-- Space collapsing only deletes characters. -/
theorem mem_collapseF :
    ∀ (f : Nat) (l : List Char) (c : Char), c ∈ collapseF f l → c ∈ l := by
  intro f
  induction f with
  | zero => intro l c h; exact h
  | succ f ih =>
    intro l c h
    match l with
    | [] => exact h
    | a :: rest =>
      by_cases hc : a = ' ' ∧ rest.head? = some ' '
      · simp only [collapseF, if_pos hc] at h
        exact List.mem_cons_of_mem a (ih rest c h)
      · simp only [collapseF, if_neg hc] at h
        rcases List.mem_cons.mp h with h | h
        · exact h ▸ List.mem_cons_self a rest
        · exact List.mem_cons_of_mem a (ih rest c h)

/-- Space collapsing keeps the head of the text. -/
theorem collapseF_head :
    ∀ (f : Nat) (l : List Char), (collapseF f l).head? = l.head? := by
  intro f
  induction f with
  | zero => intro l; rfl
  | succ f ih =>
    intro l
    match l with
    | [] => rfl
    | a :: rest =>
      by_cases hc : a = ' ' ∧ rest.head? = some ' '
      · have e : collapseF (f + 1) (a :: rest) = collapseF f rest := by
          simp only [collapseF, if_pos hc]
        rw [e, ih rest, hc.2, List.head?_cons, hc.1]
      · simp only [collapseF, if_neg hc, List.head?_cons]

/-- No two adjacent spaces: the invariant established by space collapsing. -/
def spacedR (a b : Char) : Prop := ¬(a = ' ' ∧ b = ' ')

/-- With enough fuel (the list length always suffices), the collapsed text has
no two adjacent spaces. -/
theorem collapseF_chain :
    ∀ (f : Nat) (l : List Char), l.length ≤ f →
      List.Chain' spacedR (collapseF f l) := by
  intro f
  induction f with
  | zero =>
    intro l hl
    have : l = [] := List.eq_nil_of_length_eq_zero (Nat.le_zero.mp hl)
    subst this
    exact List.chain'_nil
  | succ f ih =>
    intro l hl
    match l with
    | [] => exact List.chain'_nil
    | a :: rest =>
      have hrest : rest.length ≤ f := Nat.succ_le_succ_iff.mp hl
      by_cases hc : a = ' ' ∧ rest.head? = some ' '
      · simpa only [collapseF, if_pos hc] using ih rest hrest
      · simp only [collapseF, if_neg hc]
        refine List.chain'_cons'.mpr ⟨?_, ih rest hrest⟩
        intro y hy
        intro hab
        exact hc ⟨hab.1, by rw [← collapseF_head f rest, hy, hab.2]⟩

/-- Space collapsing is the identity on text with no two adjacent spaces. -/
theorem collapseF_eq_of_chain :
    ∀ (f : Nat) (l : List Char), List.Chain' spacedR l → collapseF f l = l := by
  intro f
  induction f with
  | zero => intro l _; rfl
  | succ f ih =>
    intro l hl
    match l with
    | [] => rfl
    | a :: rest =>
      obtain ⟨hhead, hrest⟩ := List.chain'_cons'.mp hl
      have hc : ¬(a = ' ' ∧ rest.head? = some ' ') := by
        rintro ⟨ha, hb⟩
        exact hhead ' ' hb ⟨ha, rfl⟩
      simp [collapseF, hc, ih rest hrest]

/-- Trimming only deletes characters. -/
theorem mem_jsTrim {c : Char} {l : List Char} (h : c ∈ jsTrim l) : c ∈ l := by
  unfold jsTrim at h
  exact List.IsSuffix.mem
    ( List.IsPrefix.mem h (List.rdropWhile_prefix isJsWS (List.dropWhile isJsWS l)))
    (List.dropWhile_suffix isJsWS)

/-- Trimming preserves the no-two-adjacent-spaces invariant. -/
theorem jsTrim_chain {l : List Char} (h : List.Chain' spacedR l) :
    List.Chain' spacedR (jsTrim l) := by
  unfold jsTrim
  exact List.Chain'.prefix
    ( List.Chain'.suffix h (List.dropWhile_suffix isJsWS))
    ( List.rdropWhile_prefix isJsWS (List.dropWhile isJsWS l))

/-- A front-trimmed text stays front-trimmed after back-trimming. -/
theorem dropWhile_of_trimmed (p : Char → Bool) (A : List Char)
    (h : List.dropWhile p A = A) :
    List.dropWhile p (List.rdropWhile p A) = List.rdropWhile p A := by
  rcases hB : List.rdropWhile p A with _ | ⟨b, B⟩
  · rfl
  · obtain ⟨t, ht⟩ := List.rdropWhile_prefix p A
    rw [hB] at ht
    have hA : A = b :: (B ++ t) := by rw [← ht]; rfl
    have hpb : p b = false := by
      by_contra hpb
      have hpb' : p b = true := Bool.of_not_eq_false hpb
      rw [hA, List.dropWhile_cons, if_pos hpb'] at h
      have hlen := List.IsSuffix.length_le (List.dropWhile_suffix (l := B ++ t) p)
      rw [h] at hlen
      simp at hlen
    rw [List.dropWhile_cons, if_neg (by simp [hpb])]

/-- JS `trim` is idempotent. -/
theorem jsTrim_idem (l : List Char) : jsTrim (jsTrim l) = jsTrim l := by
  unfold jsTrim
  rw [dropWhile_of_trimmed isJsWS (List.dropWhile isJsWS l)
      (List.dropWhile_idempotent isJsWS l),
    List.rdropWhile_idempotent]

/-- C9, counterexample.  `stripMarkdown` is not idempotent: on the input
`" # hi"` (space, hash, space, h, i) the first pass leaves the header intact —
`^#` does not match because of the leading space — but trims that space,
so the second pass strips the header: one pass gives `"# hi"`, two passes
give `"hi"`. -/
theorem strip_markdown_not_idempotent :
    stripMarkdown (stripMarkdown [' ', '#', ' ', 'h', 'i'])
      ≠ stripMarkdown [' ', '#', ' ', 'h', 'i'] := by
  decide

/-- C9, amended.  `stripMarkdown` is idempotent on every input containing
none of the markdown marker characters `*`, `_`, backtick, `#`: one pass of
the whitespace rewrites leaves no residue a second pass would remove.  (On
inputs with markers a second pass can remove more, because trimming and
space-collapsing can expose a header at a line start and rewrites can create
new marker pairs.) -/
theorem strip_markdown_idempotent_no_markers (l : List Char)
    (h1 : '*' ∉ l) (h2 : '_' ∉ l) (h3 : btick ∉ l) (h4 : '#' ∉ l) :
    stripMarkdown (stripMarkdown l) = stripMarkdown l := by
  by_cases hl : l = []
  · subst hl; rfl
  · have e1 : stripMarkdown l = jsTrim (collapseF l.length l) := by
      unfold stripMarkdown
      rw [if_neg hl]
      simp only [boldF_eq_of_not_mem '*' _ _ h1]
      simp only [boldF_eq_of_not_mem '_' _ _ h2]
      simp only [italF_eq_of_not_mem _ _ _ h1]
      simp only [tickF_eq_of_not_mem _ _ h3]
      simp only [hdrF_eq_of_not_mem _ _ _ h4]
    rw [e1]
    by_cases ht : jsTrim (collapseF l.length l) = []
    · rw [ht]; rfl
    · have hmem : ∀ c : Char, c ∈ jsTrim (collapseF l.length l) → c ∈ l :=
        fun c hc => mem_collapseF _ _ _ (mem_jsTrim hc)
      have hchain : List.Chain' spacedR (jsTrim (collapseF l.length l)) :=
        jsTrim_chain (collapseF_chain l.length l (Nat.le_refl _))
      unfold stripMarkdown
      rw [if_neg ht]
      simp only [boldF_eq_of_not_mem '*' _ _ (fun hc => h1 (hmem _ hc))]
      simp only [boldF_eq_of_not_mem '_' _ _ (fun hc => h2 (hmem _ hc))]
      simp only [italF_eq_of_not_mem _ _ _ (fun hc => h1 (hmem _ hc))]
      simp only [tickF_eq_of_not_mem _ _ (fun hc => h3 (hmem _ hc))]
      simp only [hdrF_eq_of_not_mem _ _ _ (fun hc => h4 (hmem _ hc))]
      rw [collapseF_eq_of_chain _ _ hchain, jsTrim_idem]

/-- C9, witness: the amended theorem applied at the concrete marker-free
input `"a  b"`. -/
theorem strip_markdown_idempotent_no_markers_witness :
    ('*' ∉ ['a', ' ', ' ', 'b'] ∧ '_' ∉ ['a', ' ', ' ', 'b']
      ∧ btick ∉ ['a', ' ', ' ', 'b'] ∧ '#' ∉ ['a', ' ', ' ', 'b'])
    ∧ stripMarkdown (stripMarkdown ['a', ' ', ' ', 'b'])
        = stripMarkdown ['a', ' ', ' ', 'b'] :=
  ⟨by decide,
   strip_markdown_idempotent_no_markers ['a', ' ', ' ', 'b']
     (by decide) (by decide) (by decide) (by decide)⟩

end PragnaPath
